import Mathlib

/-!
Shallow embedding of `src/scheduler/into_workload_system.rs` from the
shipyard repository: conversion of callables into workload-system
descriptors, with the static borrow-conflict validation performed at
conversion time.

Modelling choices:
* `StorageId` is an opaque, equality-comparable identifier with one
  reserved value (`StorageId.allStorages`) standing for
  `StorageId::of::<AllStorages>()`.
* `TypeId` values are modelled as `Nat` tokens; `TypeId::of::<F>()`
  becomes an explicit `tid : Nat` argument of each conversion, and the
  human-readable `type_name::<F>()` an explicit `tname : String`.
* A callable with side effects is modelled by explicit state passing:
  an `N`-argument callable is `σ → List Nat → σ × R` (the acquired
  views are opaque `Nat` handles), a zero-argument callable is
  `σ → σ × R`.
* Each view parameter type is a `BorrowSpec`: its `BorrowInfo`
  contribution (`info`, the list appended by `borrow_info`) and its
  `Borrow` implementation (`borrow`, which may fail with an opaque
  acquisition error modelled as `Nat`).
* `error::Run` is modelled with its two constructors used here:
  `GetStorage` (a failed view acquisition propagated by `?`) and
  `Custom` (`error::Run::from_custom` wrapping a failure payload,
  modelled as `Nat`).
* The variadic macro `impl_system!` generates, for each arity 1..10,
  textually identical code that (1) concatenates each parameter's
  `borrow_info` contribution in declared order, (2) runs the
  validation, (3) builds the descriptor whose thunk acquires each view
  in declared order with `?` and then invokes the callable.  The
  embedding expresses every arity at once through the ordered list
  `params : List BorrowSpec`.
-/

namespace Shipyard

/-- Access mode of one declared borrow: `Mutability` in `borrow.rs`. -/
inductive Mutability
  | Shared
  | Exclusive
  deriving DecidableEq, Repr

/-- Opaque, equality-comparable storage identifier with the reserved
whole-storage-set value `StorageId::of::<AllStorages>()`. -/
inductive StorageId
  | allStorages
  | custom (n : Nat)
  deriving DecidableEq, Repr

/-- One access-descriptor record: `TypeInfo` in `scheduler/mod.rs`. -/
structure TypeInfo where
  name : String
  storage_id : StorageId
  mutability : Mutability
  is_send : Bool
  is_sync : Bool
  deriving DecidableEq, Repr

/-- The reserved sentinel the `AllStorages` check compares against:
`TypeInfo { name: "", storage_id: StorageId::of::<AllStorages>(),
mutability: Mutability::Exclusive, is_send: true, is_sync: true }`. -/
def allStoragesTypeInfo : TypeInfo :=
  { name := ""
    storage_id := StorageId.allStorages
    mutability := Mutability.Exclusive
    is_send := true
    is_sync := true }

/-- Construction-time error: `error::InvalidSystem`. -/
inductive InvalidSystem
  | AllStorages
  | MultipleViews
  | MultipleViewsMut
  deriving DecidableEq, Repr

/-- Run-time error carrier: the two `error::Run` shapes this file
produces, with opaque `Nat` payloads. -/
inductive RunError
  | GetStorage (e : Nat)
  | Custom (e : Nat)
  deriving DecidableEq, Repr

/-- The shared execution context (`&World`), opaque to this core. -/
def World : Type := Nat

/-- One view parameter type: its `borrow_info` contribution and its
`Borrow::borrow` implementation (view handles and acquisition errors
are opaque `Nat`s). -/
structure BorrowSpec where
  info : List TypeInfo
  borrow : World → Except Nat Nat

/-- The produced descriptor: `WorkloadSystem` in `scheduler/mod.rs`,
parametrised by the callable's side-effect state `σ`.  `generator`
takes the accumulator passed by reference and returns the extended
accumulator together with the `TypeId` token. -/
structure WorkloadSystem (σ : Type) where
  borrow_constraints : List TypeInfo
  system_fn : σ → World → σ × Except RunError Unit
  system_type_id : Nat
  system_type_name : String
  generator : List TypeInfo → List TypeInfo × Nat

/-- One comparison of the inner validation loop: on equal storage
identifiers, `Exclusive`/`Exclusive` reports `MultipleViewsMut`, a
mixed pair reports `MultipleViews`, `Shared`/`Shared` is skipped. -/
def pairConflict (a b : TypeInfo) : Option InvalidSystem :=
  if a.storage_id = b.storage_id then
    match a.mutability, b.mutability with
    | Mutability.Exclusive, Mutability.Exclusive =>
        some InvalidSystem.MultipleViewsMut
    | Mutability.Exclusive, Mutability.Shared =>
        some InvalidSystem.MultipleViews
    | Mutability.Shared, Mutability.Exclusive =>
        some InvalidSystem.MultipleViews
    | Mutability.Shared, Mutability.Shared => none
  else
    none

/-- The inner `for b_type_info in &borrows[mid..]` loop for one fixed
`a_type_info`: first conflicting comparison returns early. -/
def conflictWith (a : TypeInfo) : List TypeInfo → Option InvalidSystem
  | [] => none
  | b :: bs =>
    match pairConflict a b with
    | some e => some e
    | none => conflictWith a bs

/-- The outer `for a_type_info in &borrows[..mid]` loop: first
conflicting pair, in loop order, returns early. -/
def crossConflict : List TypeInfo → List TypeInfo → Option InvalidSystem
  | [], _ => none
  | a :: rest, bs =>
    match conflictWith a bs with
    | some e => some e
    | none => crossConflict rest bs

/-- `let mid = borrows.len() / 2 + (borrows.len() % 2 != 0) as usize;`
i.e. `ceil(len / 2)`. -/
def mid (len : Nat) : Nat :=
  len / 2 + (if len % 2 ≠ 0 then 1 else 0)

/-- `&borrows[..mid]`. -/
def firstHalf (borrows : List TypeInfo) : List TypeInfo :=
  borrows.take (mid borrows.length)

/-- `&borrows[mid..]`. -/
def secondHalf (borrows : List TypeInfo) : List TypeInfo :=
  borrows.drop (mid borrows.length)

/-- The full validation run once at conversion time: the
`AllStorages` membership-and-length test followed by the two nested
loops over the two halves. -/
def validate (borrows : List TypeInfo) : Option InvalidSystem :=
  if allStoragesTypeInfo ∈ borrows ∧ borrows.length > 1 then
    some InvalidSystem.AllStorages
  else
    crossConflict (firstHalf borrows) (secondHalf borrows)

/-- The accumulator: each parameter type appends its `borrow_info`
records in declared order (`$type::borrow_info(&mut borrows)`). -/
def accumulateBorrows (params : List BorrowSpec) : List TypeInfo :=
  (params.map BorrowSpec.info).flatten

/-- Left-to-right acquisition of every declared view, as performed by
`(&&self)($($type::borrow(&world)?),+)`: the first failing `?`
returns its error; later parameters are not consulted. -/
def acquireAll : List BorrowSpec → World → Except Nat (List Nat)
  | [], _ => Except.ok []
  | p :: ps, w =>
    match p.borrow w with
    | Except.error e => Except.error e
    | Except.ok v =>
      match acquireAll ps w with
      | Except.error e => Except.error e
      | Except.ok vs => Except.ok (v :: vs)

/-- The descriptor built by the `N`-argument infallible conversion on
the accepted path: thunk acquires all views then calls the callable,
dropping its result; the generator re-appends the same `borrow_info`
contributions and returns the type token. -/
def mkWorkloadSystem {σ R : Type} (params : List BorrowSpec)
    (f : σ → List Nat → σ × R) (tid : Nat) (tname : String) :
    WorkloadSystem σ :=
  { borrow_constraints := accumulateBorrows params
    system_fn := fun s w =>
      match acquireAll params w with
      | Except.error e => (s, Except.error (RunError.GetStorage e))
      | Except.ok views => ((f s views).1, Except.ok ())
    system_type_id := tid
    system_type_name := tname
    generator := fun constraints => (constraints ++ accumulateBorrows params, tid) }

/-- `into_workload_system` for an `N`-argument callable (N = 1..10):
accumulate, validate, build. -/
def into_workload_system {σ R : Type} (params : List BorrowSpec)
    (f : σ → List Nat → σ × R) (tid : Nat) (tname : String) :
    Except InvalidSystem (WorkloadSystem σ) :=
  match validate (accumulateBorrows params) with
  | some e => Except.error e
  | none => Except.ok (mkWorkloadSystem params f tid tname)

/-- The descriptor built by the `N`-argument fallible conversion on
the accepted path: same acquisition, then the callable's
`Result`-convertible return is mapped through
`error::Run::from_custom` on failure. -/
def mkWorkloadTrySystem {σ α : Type} (params : List BorrowSpec)
    (f : σ → List Nat → σ × Except Nat α) (tid : Nat) (tname : String) :
    WorkloadSystem σ :=
  { borrow_constraints := accumulateBorrows params
    system_fn := fun s w =>
      match acquireAll params w with
      | Except.error e => (s, Except.error (RunError.GetStorage e))
      | Except.ok views =>
        match f s views with
        | (s', Except.error e) => (s', Except.error (RunError.Custom e))
        | (s', Except.ok _) => (s', Except.ok ())
    system_type_id := tid
    system_type_name := tname
    generator := fun constraints => (constraints ++ accumulateBorrows params, tid) }

/-- `into_workload_try_system` for an `N`-argument fallible callable:
the accumulation and validation are the same code as the infallible
conversion. -/
def into_workload_try_system {σ α : Type} (params : List BorrowSpec)
    (f : σ → List Nat → σ × Except Nat α) (tid : Nat) (tname : String) :
    Except InvalidSystem (WorkloadSystem σ) :=
  match validate (accumulateBorrows params) with
  | some e => Except.error e
  | none => Except.ok (mkWorkloadTrySystem params f tid tname)

/-- `into_workload_system` for a zero-argument callable: empty access
list, thunk ignores the context and calls the callable, generator
appends nothing. -/
def into_workload_system0 {σ R : Type} (f : σ → σ × R)
    (tid : Nat) (tname : String) :
    Except InvalidSystem (WorkloadSystem σ) :=
  Except.ok
    { borrow_constraints := []
      system_fn := fun s _ => ((f s).1, Except.ok ())
      system_type_id := tid
      system_type_name := tname
      generator := fun constraints => (constraints, tid) }

/-- `into_workload_try_system` for a zero-argument fallible callable:
as above, with the result mapped through `from_custom` on failure. -/
def into_workload_try_system0 {σ α : Type} (f : σ → σ × Except Nat α)
    (tid : Nat) (tname : String) :
    Except InvalidSystem (WorkloadSystem σ) :=
  Except.ok
    { borrow_constraints := []
      system_fn := fun s _ =>
        match f s with
        | (s', Except.error e) => (s', Except.error (RunError.Custom e))
        | (s', Except.ok _) => (s', Except.ok ())
      system_type_id := tid
      system_type_name := tname
      generator := fun constraints => (constraints, tid) }

/-- `impl IntoWorkloadSystem<(), ()> for WorkloadSystem`,
`into_workload_system`: identity passthrough. -/
def workloadSystem_into_workload_system {σ : Type} (s : WorkloadSystem σ) :
    Except InvalidSystem (WorkloadSystem σ) :=
  Except.ok s

/-- `impl IntoWorkloadSystem<(), ()> for WorkloadSystem`,
`into_workload_try_system`: identity passthrough. -/
def workloadSystem_into_workload_try_system {σ : Type} (s : WorkloadSystem σ) :
    Except InvalidSystem (WorkloadSystem σ) :=
  Except.ok s

/-! ### Helper lemmas about the validation pass -/

lemma pairConflict_eq_none_iff (a b : TypeInfo) :
    pairConflict a b = none ↔
      (a.storage_id = b.storage_id →
        a.mutability = Mutability.Shared ∧ b.mutability = Mutability.Shared) := by
  unfold pairConflict
  by_cases h : a.storage_id = b.storage_id
  · cases ha : a.mutability <;> cases hb : b.mutability <;> simp [h, ha, hb]
  · simp [h]

lemma pairConflict_eq_some_mut_iff (a b : TypeInfo) :
    pairConflict a b = some InvalidSystem.MultipleViewsMut ↔
      a.storage_id = b.storage_id ∧
        a.mutability = Mutability.Exclusive ∧ b.mutability = Mutability.Exclusive := by
  unfold pairConflict
  by_cases h : a.storage_id = b.storage_id
  · cases ha : a.mutability <;> cases hb : b.mutability <;> simp [h, ha, hb]
  · simp [h]

lemma pairConflict_eq_some_views_iff (a b : TypeInfo) :
    pairConflict a b = some InvalidSystem.MultipleViews ↔
      a.storage_id = b.storage_id ∧
        ((a.mutability = Mutability.Exclusive ∧ b.mutability = Mutability.Shared) ∨
          (a.mutability = Mutability.Shared ∧ b.mutability = Mutability.Exclusive)) := by
  unfold pairConflict
  by_cases h : a.storage_id = b.storage_id
  · cases ha : a.mutability <;> cases hb : b.mutability <;> simp [h, ha, hb]
  · simp [h]

lemma pairConflict_ne_allStorages (a b : TypeInfo) :
    pairConflict a b ≠ some InvalidSystem.AllStorages := by
  unfold pairConflict
  by_cases h : a.storage_id = b.storage_id
  · cases ha : a.mutability <;> cases hb : b.mutability <;> simp [h, ha, hb]
  · simp [h]

lemma conflictWith_eq_none_iff (a : TypeInfo) (bs : List TypeInfo) :
    conflictWith a bs = none ↔ ∀ b ∈ bs, pairConflict a b = none := by
  induction bs with
  | nil => simp [conflictWith]
  | cons b bs ih =>
    unfold conflictWith
    cases h : pairConflict a b with
    | some e => simp [h]
    | none => simp [h, ih]

lemma crossConflict_eq_none_iff (as' bs : List TypeInfo) :
    crossConflict as' bs = none ↔
      ∀ a ∈ as', ∀ b ∈ bs, pairConflict a b = none := by
  induction as' with
  | nil => simp [crossConflict]
  | cons a rest ih =>
    unfold crossConflict
    cases h : conflictWith a bs with
    | some e =>
      simp only [h]
      constructor
      · intro hc; exact absurd hc (by simp)
      · intro hall
        have := (conflictWith_eq_none_iff a bs).mpr (hall a (by simp))
        rw [this] at h
        exact absurd h (by simp)
    | none =>
      have ha := (conflictWith_eq_none_iff a bs).mp h
      simp only [h, ih]
      constructor
      · intro hall a' ha'
        rcases List.mem_cons.mp ha' with h1 | h2
        · intro b hb; rw [h1]; exact ha b hb
        · exact hall a' h2
      · intro hall a' ha' b hb
        exact hall a' (List.mem_cons_of_mem a ha') b hb

lemma conflictWith_some_mem {a : TypeInfo} {bs : List TypeInfo} {e : InvalidSystem}
    (h : conflictWith a bs = some e) :
    ∃ b ∈ bs, pairConflict a b = some e := by
  induction bs with
  | nil => simp [conflictWith] at h
  | cons b bs ihb =>
    unfold conflictWith at h
    cases hp : pairConflict a b with
    | some e' =>
      rw [hp] at h; cases h
      exact ⟨b, by simp, hp⟩
    | none =>
      rw [hp] at h
      obtain ⟨b', hb', hp'⟩ := ihb h
      exact ⟨b', List.mem_cons_of_mem b hb', hp'⟩

lemma crossConflict_some_mem {as' bs : List TypeInfo} {e : InvalidSystem}
    (h : crossConflict as' bs = some e) :
    ∃ a ∈ as', ∃ b ∈ bs, pairConflict a b = some e := by
  induction as' with
  | nil => simp [crossConflict] at h
  | cons a rest ih =>
    unfold crossConflict at h
    cases hc : conflictWith a bs with
    | some e' =>
      rw [hc] at h
      cases h
      exact ⟨a, by simp, conflictWith_some_mem hc⟩
    | none =>
      rw [hc] at h
      obtain ⟨a', ha', b, hb, hp⟩ := ih h
      exact ⟨a', List.mem_cons_of_mem a ha', b, hb, hp⟩

lemma crossConflict_ne_none {as' bs : List TypeInfo}
    (h : ¬ ∀ a ∈ as', ∀ b ∈ bs, pairConflict a b = none) :
    ∃ e, crossConflict as' bs = some e := by
  cases hc : crossConflict as' bs with
  | some e => exact ⟨e, rfl⟩
  | none => exact absurd ((crossConflict_eq_none_iff as' bs).mp hc) h

lemma validate_eq_allStorages {borrows : List TypeInfo}
    (hmem : allStoragesTypeInfo ∈ borrows) (hlen : borrows.length > 1) :
    validate borrows = some InvalidSystem.AllStorages := by
  unfold validate
  rw [if_pos ⟨hmem, hlen⟩]

lemma validate_eq_crossConflict {borrows : List TypeInfo}
    (h : ¬ (allStoragesTypeInfo ∈ borrows ∧ borrows.length > 1)) :
    validate borrows = crossConflict (firstHalf borrows) (secondHalf borrows) := by
  unfold validate
  rw [if_neg h]

lemma into_workload_system_eq_error {σ R : Type} {params : List BorrowSpec}
    {f : σ → List Nat → σ × R} {tid : Nat} {tname : String} {e : InvalidSystem}
    (h : validate (accumulateBorrows params) = some e) :
    into_workload_system params f tid tname = Except.error e := by
  unfold into_workload_system
  rw [h]

lemma into_workload_system_eq_ok {σ R : Type} {params : List BorrowSpec}
    {f : σ → List Nat → σ × R} {tid : Nat} {tname : String}
    (h : validate (accumulateBorrows params) = none) :
    into_workload_system params f tid tname =
      Except.ok (mkWorkloadSystem params f tid tname) := by
  unfold into_workload_system
  rw [h]

lemma into_workload_system_ok_inv {σ R : Type} {params : List BorrowSpec}
    {f : σ → List Nat → σ × R} {tid : Nat} {tname : String} {ws : WorkloadSystem σ}
    (h : into_workload_system params f tid tname = Except.ok ws) :
    validate (accumulateBorrows params) = none ∧
      ws = mkWorkloadSystem params f tid tname := by
  unfold into_workload_system at h
  cases hv : validate (accumulateBorrows params) with
  | some e => rw [hv] at h; cases h
  | none => rw [hv] at h; cases h; exact ⟨rfl, rfl⟩

lemma into_workload_system_error_inv {σ R : Type} {params : List BorrowSpec}
    {f : σ → List Nat → σ × R} {tid : Nat} {tname : String} {e : InvalidSystem}
    (h : into_workload_system params f tid tname = Except.error e) :
    validate (accumulateBorrows params) = some e := by
  unfold into_workload_system at h
  cases hv : validate (accumulateBorrows params) with
  | some e' => rw [hv] at h; cases h; rfl
  | none => rw [hv] at h; cases h

lemma into_workload_try_system_eq_error {σ α : Type} {params : List BorrowSpec}
    {f : σ → List Nat → σ × Except Nat α} {tid : Nat} {tname : String} {e : InvalidSystem}
    (h : validate (accumulateBorrows params) = some e) :
    into_workload_try_system params f tid tname = Except.error e := by
  unfold into_workload_try_system
  rw [h]

lemma into_workload_try_system_eq_ok {σ α : Type} {params : List BorrowSpec}
    {f : σ → List Nat → σ × Except Nat α} {tid : Nat} {tname : String}
    (h : validate (accumulateBorrows params) = none) :
    into_workload_try_system params f tid tname =
      Except.ok (mkWorkloadTrySystem params f tid tname) := by
  unfold into_workload_try_system
  rw [h]

lemma into_workload_try_system_ok_inv {σ α : Type} {params : List BorrowSpec}
    {f : σ → List Nat → σ × Except Nat α} {tid : Nat} {tname : String}
    {ws : WorkloadSystem σ}
    (h : into_workload_try_system params f tid tname = Except.ok ws) :
    validate (accumulateBorrows params) = none ∧
      ws = mkWorkloadTrySystem params f tid tname := by
  unfold into_workload_try_system at h
  cases hv : validate (accumulateBorrows params) with
  | some e => rw [hv] at h; cases h
  | none => rw [hv] at h; cases h; exact ⟨rfl, rfl⟩

lemma into_workload_try_system_error_inv {σ α : Type} {params : List BorrowSpec}
    {f : σ → List Nat → σ × Except Nat α} {tid : Nat} {tname : String}
    {e : InvalidSystem}
    (h : into_workload_try_system params f tid tname = Except.error e) :
    validate (accumulateBorrows params) = some e := by
  unfold into_workload_try_system at h
  cases hv : validate (accumulateBorrows params) with
  | some e' => rw [hv] at h; cases h; rfl
  | none => rw [hv] at h; cases h

lemma validate_singleton (t : TypeInfo) : validate [t] = none := by
  unfold validate
  rw [if_neg]
  · simp [firstHalf, secondHalf, mid, crossConflict, conflictWith]
  · simp

/-! ### Concrete fixtures for witnesses and counterexamples -/

/-- Exclusive access to storage `A`. -/
def tiExclA : TypeInfo :=
  { name := "A", storage_id := StorageId.custom 0,
    mutability := Mutability.Exclusive, is_send := true, is_sync := true }

/-- Exclusive access to storage `B`. -/
def tiExclB : TypeInfo :=
  { name := "B", storage_id := StorageId.custom 1,
    mutability := Mutability.Exclusive, is_send := true, is_sync := true }

/-- Shared access to storage `A`. -/
def tiSharedA : TypeInfo :=
  { name := "A", storage_id := StorageId.custom 0,
    mutability := Mutability.Shared, is_send := true, is_sync := true }

/-- Shared access to storage `B`. -/
def tiSharedB : TypeInfo :=
  { name := "B", storage_id := StorageId.custom 1,
    mutability := Mutability.Shared, is_send := true, is_sync := true }

/-- A view acquisition that always succeeds with handle 0. -/
def okBorrow : World → Except Nat Nat := fun _ => Except.ok 0

/-- A parameter contributing exactly one access record, with an
always-succeeding acquisition. -/
def mkParam (t : TypeInfo) : BorrowSpec :=
  { info := [t], borrow := okBorrow }

/-- A side-effect-free callable over state `Unit`. -/
def unitF : Unit → List Nat → Unit × Unit := fun s _ => (s, ())

/-- A concrete execution context token. -/
def world0 : World := (0 : Nat)

/-! ### Claim theorems -/

/-- C4: for every zero-argument callable, `into_workload_system`
always succeeds, the descriptor's access list is empty, and the thunk
ignores the execution context, applies the wrapped callable exactly
once (the resulting state is one application of `f`), and returns
success. -/
theorem c4_zero_argument_conversion {σ R : Type} (f : σ → σ × R)
    (tid : Nat) (tname : String) :
    ∃ ws : WorkloadSystem σ,
      into_workload_system0 f tid tname = Except.ok ws ∧
      ws.borrow_constraints = [] ∧
      (∀ (s : σ) (w : World), ws.system_fn s w = ((f s).1, Except.ok ())) ∧
      (∀ (s : σ) (w w' : World), ws.system_fn s w = ws.system_fn s w') :=
  ⟨_, rfl, rfl, fun _ _ => rfl, fun _ _ _ => rfl⟩

/-- C5: converting an already-built `WorkloadSystem` through either
`into_workload_system` or `into_workload_try_system` succeeds and
returns the very same descriptor (hence identical thunk, access list,
type token, name and regenerator), and the conversion is idempotent. -/
theorem c5_identity_passthrough {σ : Type} (s : WorkloadSystem σ) :
    workloadSystem_into_workload_system s = Except.ok s ∧
    workloadSystem_into_workload_try_system s = Except.ok s ∧
    (workloadSystem_into_workload_system s).bind
        workloadSystem_into_workload_system =
      workloadSystem_into_workload_system s ∧
    (workloadSystem_into_workload_try_system s).bind
        workloadSystem_into_workload_try_system =
      workloadSystem_into_workload_try_system s :=
  ⟨rfl, rfl, rfl, rfl⟩

/-- C3: whenever the accumulated access list contains the reserved
entire-storage-set Exclusive sentinel and has more than one entry,
conversion fails with `AllStorages`, whatever the other entries are
and wherever they sit; and a system whose accumulated list is exactly
the sentinel alone constructs successfully. -/
theorem c3_all_storages_sentinel_rule :
    (∀ (σ R : Type) (params : List BorrowSpec) (f : σ → List Nat → σ × R)
        (tid : Nat) (tname : String),
      allStoragesTypeInfo ∈ accumulateBorrows params →
      1 < (accumulateBorrows params).length →
      into_workload_system params f tid tname =
        Except.error InvalidSystem.AllStorages) ∧
    (∀ (σ R : Type) (params : List BorrowSpec) (f : σ → List Nat → σ × R)
        (tid : Nat) (tname : String),
      accumulateBorrows params = [allStoragesTypeInfo] →
      into_workload_system params f tid tname =
        Except.ok (mkWorkloadSystem params f tid tname)) := by
  constructor
  · intro σ R params f tid tname hmem hlen
    exact into_workload_system_eq_error (validate_eq_allStorages hmem hlen)
  · intro σ R params f tid tname hacc
    refine into_workload_system_eq_ok ?_
    rw [hacc]
    exact validate_singleton allStoragesTypeInfo

/-- Witness for C3 at a concrete input: the sentinel together with a
shared access on `B` is rejected with `AllStorages`, while the
sentinel alone is accepted. -/
theorem c3_all_storages_sentinel_rule_witness :
    into_workload_system [mkParam allStoragesTypeInfo, mkParam tiSharedB]
        unitF 0 "w3a" = Except.error InvalidSystem.AllStorages ∧
    into_workload_system [mkParam allStoragesTypeInfo] unitF 0 "w3b" =
      Except.ok (mkWorkloadSystem [mkParam allStoragesTypeInfo] unitF 0 "w3b") :=
  ⟨c3_all_storages_sentinel_rule.1 Unit Unit
      [mkParam allStoragesTypeInfo, mkParam tiSharedB] unitF 0 "w3a"
      (by decide) (by decide),
    c3_all_storages_sentinel_rule.2 Unit Unit
      [mkParam allStoragesTypeInfo] unitF 0 "w3b" (by decide)⟩

/-- C10: every system whose accumulated access list has exactly one
entry constructs successfully, whatever that entry's storage and
mode, for the infallible and the fallible conversion alike. -/
theorem c10_singleton_access_succeeds {σ R α : Type} (params : List BorrowSpec)
    (f : σ → List Nat → σ × R) (g : σ → List Nat → σ × Except Nat α)
    (tid : Nat) (tname : String) (t : TypeInfo)
    (h : accumulateBorrows params = [t]) :
    into_workload_system params f tid tname =
      Except.ok (mkWorkloadSystem params f tid tname) ∧
    into_workload_try_system params g tid tname =
      Except.ok (mkWorkloadTrySystem params g tid tname) := by
  have hv : validate (accumulateBorrows params) = none := by
    rw [h]; exact validate_singleton t
  exact ⟨into_workload_system_eq_ok hv, into_workload_try_system_eq_ok hv⟩

/-- Witness for C10: a single exclusive access on `A` constructs
successfully. -/
theorem c10_singleton_access_succeeds_witness :
    into_workload_system [mkParam tiExclA] unitF 0 "w10" =
      Except.ok (mkWorkloadSystem [mkParam tiExclA] unitF 0 "w10") :=
  (c10_singleton_access_succeeds [mkParam tiExclA] unitF
      (fun (s : Unit) (_ : List Nat) => (s, (Except.ok 0 : Except Nat Nat)))
      0 "w10" tiExclA (by decide)).1

/-- The C2 scenario: accesses `{Exclusive A, Exclusive A, Shared B,
Shared B}` in that order. -/
def c2Params : List BorrowSpec :=
  [mkParam tiExclA, mkParam tiExclA, mkParam tiSharedB, mkParam tiSharedB]

/-- C2: the pairwise pass only compares entries across the two
halves: whenever no cross-half pair conflicts (and the `AllStorages`
condition fails), construction succeeds, whatever conflicts lie
inside either half; in particular the list
`[Exclusive A, Exclusive A, Shared B, Shared B]` is accepted even
though its first two entries conflict with each other. -/
theorem c2_intra_half_conflicts_undetected :
    (∀ (σ R : Type) (params : List BorrowSpec) (f : σ → List Nat → σ × R)
        (tid : Nat) (tname : String),
      ¬ (allStoragesTypeInfo ∈ accumulateBorrows params ∧
          (accumulateBorrows params).length > 1) →
      (∀ a ∈ firstHalf (accumulateBorrows params),
        ∀ b ∈ secondHalf (accumulateBorrows params),
          a.storage_id = b.storage_id →
            a.mutability = Mutability.Shared ∧
              b.mutability = Mutability.Shared) →
      into_workload_system params f tid tname =
        Except.ok (mkWorkloadSystem params f tid tname)) ∧
    (accumulateBorrows c2Params = [tiExclA, tiExclA, tiSharedB, tiSharedB] ∧
      mid (accumulateBorrows c2Params).length = 2 ∧
      pairConflict tiExclA tiExclA = some InvalidSystem.MultipleViewsMut ∧
      into_workload_system c2Params unitF 0 "c2" =
        Except.ok (mkWorkloadSystem c2Params unitF 0 "c2")) := by
  constructor
  · intro σ R params f tid tname hno hcross
    refine into_workload_system_eq_ok ?_
    rw [validate_eq_crossConflict hno]
    refine (crossConflict_eq_none_iff _ _).mpr ?_
    intro a ha b hb
    exact (pairConflict_eq_none_iff a b).mpr (hcross a ha b hb)
  · exact ⟨by decide, by decide, by decide, rfl⟩

/-- Witness for C2's universal part at a concrete input: the two
cross-half-clean lists are accepted. -/
theorem c2_intra_half_conflicts_undetected_witness :
    into_workload_system c2Params unitF 0 "w2" =
      Except.ok (mkWorkloadSystem c2Params unitF 0 "w2") :=
  c2_intra_half_conflicts_undetected.1 Unit Unit c2Params unitF 0 "w2"
    (by decide) (by decide)

/-- C9: when the `AllStorages` condition holds, it wins over the
pairwise pass: even in the presence of a conflicting cross-half pair
the reported error is `AllStorages`, never `MultipleViews` or
`MultipleViewsMut`. -/
theorem c9_all_storages_takes_precedence {σ R : Type}
    (params : List BorrowSpec) (f : σ → List Nat → σ × R)
    (tid : Nat) (tname : String)
    (hmem : allStoragesTypeInfo ∈ accumulateBorrows params)
    (hlen : 1 < (accumulateBorrows params).length)
    (_hconf : ∃ a ∈ firstHalf (accumulateBorrows params),
      ∃ b ∈ secondHalf (accumulateBorrows params),
        a.storage_id = b.storage_id ∧
          ¬ (a.mutability = Mutability.Shared ∧
              b.mutability = Mutability.Shared)) :
    into_workload_system params f tid tname =
      Except.error InvalidSystem.AllStorages ∧
    into_workload_system params f tid tname ≠
      Except.error InvalidSystem.MultipleViews ∧
    into_workload_system params f tid tname ≠
      Except.error InvalidSystem.MultipleViewsMut := by
  have h : into_workload_system params f tid tname =
      Except.error InvalidSystem.AllStorages :=
    into_workload_system_eq_error (validate_eq_allStorages hmem hlen)
  refine ⟨h, ?_, ?_⟩
  · intro hbad
    have := h.symm.trans hbad
    simp at this
  · intro hbad
    have := h.symm.trans hbad
    simp at this

/-- Witness for C9: the sentinel followed by two exclusive accesses
on `A` (a conflicting cross-half pair) is rejected with
`AllStorages`. -/
theorem c9_all_storages_takes_precedence_witness :
    into_workload_system [mkParam allStoragesTypeInfo, mkParam tiExclA, mkParam tiExclA]
        unitF 0 "w9" = Except.error InvalidSystem.AllStorages :=
  (c9_all_storages_takes_precedence
      [mkParam allStoragesTypeInfo, mkParam tiExclA, mkParam tiExclA]
      unitF 0 "w9" (by decide) (by decide) (by decide)).1

/-- The C1 counterexample input: accesses
`[Exclusive A, Exclusive B, Shared A, Exclusive B]`. -/
def cexParams : List BorrowSpec :=
  [mkParam tiExclA, mkParam tiExclB, mkParam tiSharedA, mkParam tiExclB]

/-- C1, counterexample to the claim as stated: in
`[Exclusive A, Exclusive B, Shared A, Exclusive B]` (`mid = 2`) the
entry `Exclusive B` appears in both halves — a cross-half pair
sharing a storage identifier with both sides Exclusive — yet
conversion fails with `MultipleViews`, not `MultipleViewsMut`,
because the loop meets the mixed pair on storage `A` first. -/
theorem c1_claimed_error_kind_counterexample :
    tiExclB ∈ firstHalf (accumulateBorrows cexParams) ∧
    tiExclB ∈ secondHalf (accumulateBorrows cexParams) ∧
    tiExclB.mutability = Mutability.Exclusive ∧
    into_workload_system cexParams unitF 0 "cex" =
      Except.error InvalidSystem.MultipleViews ∧
    into_workload_system cexParams unitF 0 "cex" ≠
      Except.error InvalidSystem.MultipleViewsMut := by
  refine ⟨by decide, by decide, rfl, rfl, ?_⟩
  intro hbad
  have h : into_workload_system cexParams unitF 0 "cex" =
      Except.error InvalidSystem.MultipleViews := rfl
  have := h.symm.trans hbad
  simp at this

/-- C1, amended: assuming the `AllStorages` condition fails, (i) if
some cross-half pair shares a storage identifier and is not
Shared×Shared, conversion fails with `MultipleViewsMut` or
`MultipleViews`; (ii) the error is `MultipleViewsMut` only if some
such pair is Exclusive×Exclusive, and (iii) `MultipleViews` only if
some such pair mixes Exclusive with Shared — so the error kind
matches an actual conflicting pair, and when all conflicting pairs
are of one kind that kind's error is returned; (iv) if every
cross-half pair with a shared storage identifier is Shared×Shared,
construction succeeds. -/
theorem c1_cross_half_conflict_detection (σ R : Type)
    (params : List BorrowSpec) (f : σ → List Nat → σ × R)
    (tid : Nat) (tname : String)
    (hno : ¬ (allStoragesTypeInfo ∈ accumulateBorrows params ∧
        (accumulateBorrows params).length > 1)) :
    ((∃ a ∈ firstHalf (accumulateBorrows params),
      ∃ b ∈ secondHalf (accumulateBorrows params),
        a.storage_id = b.storage_id ∧
          ¬ (a.mutability = Mutability.Shared ∧
              b.mutability = Mutability.Shared)) →
      into_workload_system params f tid tname =
          Except.error InvalidSystem.MultipleViewsMut ∨
        into_workload_system params f tid tname =
          Except.error InvalidSystem.MultipleViews) ∧
    (into_workload_system params f tid tname =
        Except.error InvalidSystem.MultipleViewsMut →
      ∃ a ∈ firstHalf (accumulateBorrows params),
        ∃ b ∈ secondHalf (accumulateBorrows params),
          a.storage_id = b.storage_id ∧
            a.mutability = Mutability.Exclusive ∧
            b.mutability = Mutability.Exclusive) ∧
    (into_workload_system params f tid tname =
        Except.error InvalidSystem.MultipleViews →
      ∃ a ∈ firstHalf (accumulateBorrows params),
        ∃ b ∈ secondHalf (accumulateBorrows params),
          a.storage_id = b.storage_id ∧
            ((a.mutability = Mutability.Exclusive ∧
                b.mutability = Mutability.Shared) ∨
              (a.mutability = Mutability.Shared ∧
                b.mutability = Mutability.Exclusive))) ∧
    ((∀ a ∈ firstHalf (accumulateBorrows params),
      ∀ b ∈ secondHalf (accumulateBorrows params),
        a.storage_id = b.storage_id →
          a.mutability = Mutability.Shared ∧
            b.mutability = Mutability.Shared) →
      into_workload_system params f tid tname =
        Except.ok (mkWorkloadSystem params f tid tname)) := by
  refine ⟨?_, ?_, ?_, ?_⟩
  · intro hpair
    have hne : ¬ ∀ a ∈ firstHalf (accumulateBorrows params),
        ∀ b ∈ secondHalf (accumulateBorrows params),
          pairConflict a b = none := by
      intro hall
      obtain ⟨a, ha, b, hb, hsid, hmode⟩ := hpair
      exact hmode ((pairConflict_eq_none_iff a b).mp (hall a ha b hb) hsid)
    obtain ⟨e, he⟩ := crossConflict_ne_none hne
    have hv : validate (accumulateBorrows params) = some e :=
      (validate_eq_crossConflict hno).trans he
    obtain ⟨a, ha, b, hb, hp⟩ := crossConflict_some_mem he
    cases e with
    | AllStorages => exact absurd hp (pairConflict_ne_allStorages a b)
    | MultipleViews => exact Or.inr (into_workload_system_eq_error hv)
    | MultipleViewsMut => exact Or.inl (into_workload_system_eq_error hv)
  · intro herr
    have hv := into_workload_system_error_inv herr
    rw [validate_eq_crossConflict hno] at hv
    obtain ⟨a, ha, b, hb, hp⟩ := crossConflict_some_mem hv
    exact ⟨a, ha, b, hb, (pairConflict_eq_some_mut_iff a b).mp hp⟩
  · intro herr
    have hv := into_workload_system_error_inv herr
    rw [validate_eq_crossConflict hno] at hv
    obtain ⟨a, ha, b, hb, hp⟩ := crossConflict_some_mem hv
    exact ⟨a, ha, b, hb, (pairConflict_eq_some_views_iff a b).mp hp⟩
  · intro hcross
    refine into_workload_system_eq_ok ?_
    rw [validate_eq_crossConflict hno]
    refine (crossConflict_eq_none_iff _ _).mpr ?_
    intro a ha b hb
    exact (pairConflict_eq_none_iff a b).mpr (hcross a ha b hb)

/-- Witness for the amended C1 at a concrete input: two exclusive
accesses on `A` land in opposite halves, so conversion fails with one
of the two pairwise errors. -/
theorem c1_cross_half_conflict_detection_witness :
    into_workload_system [mkParam tiExclA, mkParam tiExclA] unitF 0 "w1" =
        Except.error InvalidSystem.MultipleViewsMut ∨
      into_workload_system [mkParam tiExclA, mkParam tiExclA] unitF 0 "w1" =
        Except.error InvalidSystem.MultipleViews :=
  (c1_cross_half_conflict_detection Unit Unit
      [mkParam tiExclA, mkParam tiExclA] unitF 0 "w1" (by decide)).1
    (by decide)

/-- C6: every successfully constructed descriptor — from the
zero-argument, `N`-argument, or fallible conversions — stores an
access list equal to what its regenerator produces on an empty
accumulator, and the type token the regenerator returns equals the
stored `system_type_id`. -/
theorem c6_regenerator_invariant {σ R α : Type} (params : List BorrowSpec)
    (f : σ → List Nat → σ × R) (g : σ → List Nat → σ × Except Nat α)
    (f0 : σ → σ × R) (g0 : σ → σ × Except Nat α)
    (tid : Nat) (tname : String) (ws : WorkloadSystem σ) :
    (into_workload_system params f tid tname = Except.ok ws →
      ws.generator [] = (ws.borrow_constraints, ws.system_type_id)) ∧
    (into_workload_try_system params g tid tname = Except.ok ws →
      ws.generator [] = (ws.borrow_constraints, ws.system_type_id)) ∧
    (into_workload_system0 f0 tid tname = Except.ok ws →
      ws.generator [] = (ws.borrow_constraints, ws.system_type_id)) ∧
    (into_workload_try_system0 g0 tid tname = Except.ok ws →
      ws.generator [] = (ws.borrow_constraints, ws.system_type_id)) := by
  refine ⟨?_, ?_, ?_, ?_⟩
  · intro h
    obtain ⟨-, rfl⟩ := into_workload_system_ok_inv h
    simp [mkWorkloadSystem]
  · intro h
    obtain ⟨-, rfl⟩ := into_workload_try_system_ok_inv h
    simp [mkWorkloadTrySystem]
  · intro h
    unfold into_workload_system0 at h
    cases h
    rfl
  · intro h
    unfold into_workload_try_system0 at h
    cases h
    rfl

/-- Witness for C6 at a concrete input: the descriptor built from one
shared access on `B` satisfies the regenerator invariant. -/
theorem c6_regenerator_invariant_witness :
    (mkWorkloadSystem [mkParam tiSharedB] unitF 3 "w6").generator [] =
      ((mkWorkloadSystem [mkParam tiSharedB] unitF 3 "w6").borrow_constraints,
        (mkWorkloadSystem [mkParam tiSharedB] unitF 3 "w6").system_type_id) :=
  (c6_regenerator_invariant [mkParam tiSharedB] unitF
      (fun (s : Unit) (_ : List Nat) => (s, (Except.ok 0 : Except Nat Nat)))
      (fun (s : Unit) => (s, ()))
      (fun (s : Unit) => (s, (Except.ok 0 : Except Nat Nat)))
      3 "w6" (mkWorkloadSystem [mkParam tiSharedB] unitF 3 "w6")).1 rfl

/-- C7: the fallible conversion validates exactly like the infallible
one (same rejections, same stored access list), and its thunk maps
the callable's result to the binary outcome: a success value yields
the thunk's success, a failure payload `e` yields the run failure
`RunError.Custom e`. -/
theorem c7_try_system_outcome {σ R α : Type} (params : List BorrowSpec)
    (f : σ → List Nat → σ × R) (g : σ → List Nat → σ × Except Nat α)
    (tid : Nat) (tname : String) :
    (∀ e : InvalidSystem,
      into_workload_try_system params g tid tname = Except.error e ↔
        into_workload_system params f tid tname = Except.error e) ∧
    (∀ ws : WorkloadSystem σ,
      into_workload_try_system params g tid tname = Except.ok ws →
        ws.borrow_constraints = accumulateBorrows params) ∧
    (∀ (ws : WorkloadSystem σ) (s s' : σ) (w : World) (views : List Nat)
        (e : Nat),
      into_workload_try_system params g tid tname = Except.ok ws →
      acquireAll params w = Except.ok views →
      g s views = (s', Except.error e) →
      ws.system_fn s w = (s', Except.error (RunError.Custom e))) ∧
    (∀ (ws : WorkloadSystem σ) (s s' : σ) (w : World) (views : List Nat)
        (v : α),
      into_workload_try_system params g tid tname = Except.ok ws →
      acquireAll params w = Except.ok views →
      g s views = (s', Except.ok v) →
      ws.system_fn s w = (s', Except.ok ())) := by
  refine ⟨?_, ?_, ?_, ?_⟩
  · intro e
    constructor
    · intro h
      exact into_workload_system_eq_error (into_workload_try_system_error_inv h)
    · intro h
      exact into_workload_try_system_eq_error (into_workload_system_error_inv h)
  · intro ws h
    obtain ⟨-, rfl⟩ := into_workload_try_system_ok_inv h
    rfl
  · intro ws s s' w views e h hacq hg
    obtain ⟨-, rfl⟩ := into_workload_try_system_ok_inv h
    simp [mkWorkloadTrySystem, hacq, hg]
  · intro ws s s' w views v h hacq hg
    obtain ⟨-, rfl⟩ := into_workload_try_system_ok_inv h
    simp [mkWorkloadTrySystem, hacq, hg]

/-- A fallible callable that always reports failure payload 7. -/
def failingCallable : Unit → List Nat → Unit × Except Nat Unit :=
  fun s _ => (s, Except.error 7)

/-- Witness for C7 at a concrete input: the thunk of the fallible
system built from one shared access on `B` wraps the callable's
failure payload 7 into `RunError.Custom 7`. -/
theorem c7_try_system_outcome_witness :
    (mkWorkloadTrySystem [mkParam tiSharedB] failingCallable 0 "w7").system_fn
        () world0 = ((), Except.error (RunError.Custom 7)) :=
  (c7_try_system_outcome [mkParam tiSharedB] unitF failingCallable
      0 "w7").2.2.1
    (mkWorkloadTrySystem [mkParam tiSharedB] failingCallable 0 "w7")
    () () world0 [0] 7 rfl rfl rfl

/-- A parameter whose acquisition always fails with error 5,
contributing an exclusive access on `B`. -/
def failBorrowParam : BorrowSpec :=
  { info := [tiExclB], borrow := fun _ => Except.error 5 }

/-- The C8 witness parameter list: a succeeding acquisition, then a
failing one, then another succeeding one. -/
def c8Params : List BorrowSpec :=
  [mkParam tiSharedB, failBorrowParam, mkParam tiExclA]

/-- C8: the thunk acquires the declared views left to right in
declared parameter order — the first failing acquisition determines
the result, later parameters notwithstanding — and on any acquisition
failure the thunk returns that failure wrapped as
`RunError.GetStorage` with the callable never invoked: the state is
untouched and the result does not depend on the callable. -/
theorem c8_acquisition_order_and_failure {σ R : Type}
    (ps1 ps2 : List BorrowSpec) (p : BorrowSpec) (params : List BorrowSpec)
    (f g : σ → List Nat → σ × R) (tid : Nat) (tname : String)
    (w : World) (e : Nat) :
    (params = ps1 ++ p :: ps2 →
      (∀ q ∈ ps1, ∃ v, q.borrow w = Except.ok v) →
      p.borrow w = Except.error e →
      acquireAll params w = Except.error e) ∧
    (∀ ws : WorkloadSystem σ,
      into_workload_system params f tid tname = Except.ok ws →
      acquireAll params w = Except.error e →
      ∀ s : σ, ws.system_fn s w = (s, Except.error (RunError.GetStorage e))) ∧
    (∀ wsf wsg : WorkloadSystem σ,
      into_workload_system params f tid tname = Except.ok wsf →
      into_workload_system params g tid tname = Except.ok wsg →
      acquireAll params w = Except.error e →
      ∀ s : σ, wsf.system_fn s w = wsg.system_fn s w) := by
  refine ⟨?_, ?_, ?_⟩
  · rintro rfl hok hfail
    induction ps1 with
    | nil => simp [acquireAll, hfail]
    | cons q qs ih =>
      obtain ⟨v, hv⟩ := hok q (by simp)
      have hrest := ih fun q' hq' => hok q' (List.mem_cons_of_mem q hq')
      simp [acquireAll, hv, hrest]
  · intro ws h hacq s
    obtain ⟨-, rfl⟩ := into_workload_system_ok_inv h
    simp [mkWorkloadSystem, hacq]
  · intro wsf wsg hf hg hacq s
    obtain ⟨-, rfl⟩ := into_workload_system_ok_inv hf
    obtain ⟨-, rfl⟩ := into_workload_system_ok_inv hg
    simp [mkWorkloadSystem, hacq]

/-- Witness for C8 at a concrete input: with a succeeding first
acquisition and a failing second one, the whole acquisition fails
with the second parameter's error 5, and the thunk returns
`RunError.GetStorage 5` with the state untouched. -/
theorem c8_acquisition_order_and_failure_witness :
    acquireAll c8Params world0 = Except.error 5 ∧
    (mkWorkloadSystem c8Params unitF 0 "w8").system_fn () world0 =
      ((), Except.error (RunError.GetStorage 5)) := by
  have thm := c8_acquisition_order_and_failure
    [mkParam tiSharedB] [mkParam tiExclA] failBorrowParam c8Params
    unitF unitF 0 "w8" world0 5
  have h1 : acquireAll c8Params world0 = Except.error 5 :=
    thm.1 rfl
      (fun q hq => by
        rw [List.mem_singleton.mp hq]
        exact ⟨0, rfl⟩)
      rfl
  exact ⟨h1,
    thm.2.1 (mkWorkloadSystem c8Params unitF 0 "w8") rfl h1 ()⟩

end Shipyard
